import Mathlib

/-!
Verification of the CrediSynth qualitative-assessment service.

The definitions below are a shallow embedding of the score-derivation,
decision and normalization logic of the repository (src/app/main.py,
src/app/gateway_analyzer.py, src/app/gemini_client.py, src/app/models.py).
Machine floats are modelled as rationals; optional/missing dictionary fields
are modelled as Option values.  Each definition names the source function it
embeds in its doc comment.
-/

namespace CrediSynth

/-- Python truthiness-based `x or d` for an optional number: `None` and `0.0`
are falsy, so both fall back to the default `d`. -/
def pyOrQ (o : Option ℚ) (d : ℚ) : ℚ :=
  match o with
  | none => d
  | some x => if x = 0 then d else x

/-- Python truthiness-based `x or d` for an optional string: `None` and the
empty string are falsy. -/
def pyOrStr (o : Option String) (d : String) : String :=
  match o with
  | none => d
  | some s => if s = "" then d else s

/-- Python `round(x)` with no digit count: round half to even, to an integer. -/
def pyRound (q : ℚ) : ℤ :=
  let f := ⌊q⌋
  let r := q - f
  if r < 1/2 then f
  else if 1/2 < r then f + 1
  else if Even f then f else f + 1

/-- Python `round(x, 4)`: round half to even at four decimal places. -/
def round4 (q : ℚ) : ℚ :=
  (pyRound (q * 10000) : ℚ) / 10000

/-- Helper for the Python idiom `max(0.0, min(1.0, x))` used throughout the
score derivations in main.py. -/
def clamp01 (x : ℚ) : ℚ := max 0 (min 1 x)

/-- Drop leading whitespace characters from a character list. -/
def dropWS : List Char → List Char
  | [] => []
  | c :: cs => if c.isWhitespace then dropWS cs else c :: cs

/-- Remove leading and trailing whitespace from a character list. -/
def trimChars (l : List Char) : List Char :=
  (dropWS (dropWS l.reverse).reverse)

/-- Python `s.strip()`. -/
def pyStrip (s : String) : String := String.mk (trimChars s.data)

/-- Python `s.lower()`. -/
def pyLower (s : String) : String := String.mk (s.data.map Char.toLower)

/-- Python `s.strip().lower()`, the normalization used before the enum and
category lookups in main.py and gemini_client.py. -/
def lowerTrim (s : String) : String := pyLower (pyStrip s)

/-- Python `s.capitalize()`: first character uppercased, the rest lowercased. -/
def pyCapitalize (s : String) : String :=
  match s.data with
  | [] => ""
  | c :: cs => String.mk (c.toUpper :: cs.map Char.toLower)

/-! ### Narrative synthesizer fallback (main.py, synthesize_fallback) -/

/-- View of the QSEReportInput fields read by synthesize_fallback (main.py
86-109) after the section lookups on lines 94-101: every section mapping is
optional and each field lookup may miss, so every field is optional.  Fields
carry the numeric/string/boolean type at which the code compares them (a
present but non-numeric value would raise inside the handler and produce no
report at all, so it lies outside this view).  Field names follow the local
variable names of synthesize_fallback. -/
structure QSEFallbackView where
  request_id : String
  customer_id : String
  dti : Option ℚ
  residual_income : Option ℚ
  kyc : Option String
  fayda : Option String
  pep_hit : Option Bool
  dsti : Option ℚ

/-- View of QAAQualitativeReport (models.py 83-96) restricted to the fields
the claims reference.  The four narrative fields that only interpolate raw
section values into fixed template sentences (ability_to_repay,
willingness_to_repay, key_risk_synthesis, key_strengths_synthesis) are not
referenced by any claim and are not modelled. -/
structure QAAReport where
  analysis_id : String
  qse_request_id : String
  customer_id : String
  executive_summary : String
  nbe_compliance_summary : String
  final_recommendation : String
  recommendation_justification : String

/-- Embeds the compliance test of synthesize_fallback (main.py line 103):
compliant = (pep_hit is False) and (kyc in ("Enhanced", "Standard")) and
(fayda == "Verified") and (aff.get("debt_service_to_income_ratio_dsti", 1)
<= 0.35). -/
def fallbackCompliant (q : QSEFallbackView) : Bool :=
  (q.pep_hit == some false) && (q.kyc == some "Enhanced" || q.kyc == some "Standard") &&
    (q.fayda == some "Verified") && decide (q.dsti.getD 1 ≤ 35/100)

/-- Embeds the decision test of synthesize_fallback (main.py line 106):
(dti is not None and dti < 0.35) and (residual_income or 0) > 5000 and
fayda == "Verified". -/
def fallbackApproveConds (q : QSEFallbackView) : Bool :=
  (match q.dti with
   | some d => decide (d < 35/100)
   | none => false) &&
    decide (pyOrQ q.residual_income 0 > 5000) && (q.fayda == some "Verified")

/-- Embeds synthesize_fallback (main.py 86-155): the deterministic qualitative
report used when MOCK_MODE is enabled.  Compliance summary, final
recommendation and justification follow lines 103-109 and 136-141. -/
def synthesizeFallback (q : QSEFallbackView) (analysis_id : String) : QAAReport :=
  let nbe_summary :=
    if fallbackCompliant q then "COMPLIANT"
    else "NON-COMPLIANT: Policy thresholds not met or KYC/Fayda issues"
  let final :=
    if fallbackApproveConds q then "Approve with Conditions" else "Manual Review"
  let justification :=
    if final = "Approve with Conditions" then
      "Approve with conditions given strong capacity and verified identity; monitor liquidity and spending volatility; reassess if inflation worsens."
    else "Manual review advised due to capacity/compliance uncertainties."
  { analysis_id := analysis_id
    qse_request_id := q.request_id
    customer_id := q.customer_id
    executive_summary := "Applicant shows solid repayment capacity with verified identity. DTI and residual income indicate adequate buffer; salary inflows are consistent. External macro risks exist but are moderate."
    nbe_compliance_summary := nbe_summary
    final_recommendation := final
    recommendation_justification := justification }

/-! ### Final-recommendation normalization and validation
(gemini_client.py _normalize_enums, models.py QAAQualitativeReport) -/

/-- The four canonical literals admitted by the final_recommendation field of
QAAQualitativeReport (models.py line 95). -/
def finalRecLiterals : List String :=
  ["Approve", "Approve with Conditions", "Manual Review", "Decline"]

/-- Embeds _normalize_enums (gemini_client.py 73-103) at the
final_recommendation value it rewrites: the value is stripped and lowercased,
looked up in the synonym table, and replaced by the canonical literal on a
hit; on a miss the original value is kept. -/
def normalizeFinalRec (v : String) : String :=
  let s := lowerTrim v
  if s = "approve" ∨ s = "approved" ∨ s = "approval" ∨
      s = "approve loan application" ∨ s = "approve application" then "Approve"
  else if s = "approve with conditions" ∨ s = "approved with conditions" ∨
      s = "conditional approve" ∨ s = "approve with condition" then "Approve with Conditions"
  else if s = "manual review" ∨ s = "needs manual review" ∨
      s = "refer to underwriter" ∨ s = "underwriter review" then "Manual Review"
  else if s = "decline" ∨ s = "rejected" ∨ s = "reject" ∨
      s = "do not approve" then "Decline"
  else v

/-- Embeds the Literal validation of QAAQualitativeReport.final_recommendation
(models.py line 95): model_validate accepts the payload value only when it is
one of the four canonical literals, and rejects it otherwise. -/
def validateFinalRec (v : String) : Option String :=
  if v ∈ finalRecLiterals then some v else none

/-- Embeds the AI acceptance path of run_gemini (gemini_client.py 189-200):
the decoded payload is passed through _normalize_enums and then
schema-validated; a schema violation raises DownstreamError, so a report is
produced only when validation succeeds. -/
def aiFinalRec (v : String) : Option String :=
  validateFinalRec (normalizeFinalRec v)

/-! ### Gateway analyzer decisions (gateway_analyzer.py _determine_decisions) -/

/-- Embeds FraudDetectionResult (models_extended.py 12-19) restricted to the
fields _determine_decisions reads for the final decision. -/
structure FraudFields where
  block_transaction : Bool
  require_manual_review : Bool

/-- Embeds NBEComplianceDetails (models_extended.py 64-73) restricted to the
fields _determine_decisions reads for the final decision. -/
structure NBEFields where
  overall_compliance : String

/-- Embeds GatewayAssessmentInput (models_extended.py 112-164) restricted to
the fields the final-decision logic of _determine_decisions reads. -/
structure GatewayDecisionFields where
  fraud_detection_result : Option FraudFields
  nbe_compliance_status : Option NBEFields
  final_decision : Option String

/-- Truthiness of `gateway_input.fraud_detection_result and
gateway_input.fraud_detection_result.block_transaction`. -/
def fraudBlocks (g : GatewayDecisionFields) : Bool :=
  match g.fraud_detection_result with
  | some f => f.block_transaction
  | none => false

/-- Truthiness of `gateway_input.fraud_detection_result and
gateway_input.fraud_detection_result.require_manual_review`. -/
def fraudNeedsReview (g : GatewayDecisionFields) : Bool :=
  match g.fraud_detection_result with
  | some f => f.require_manual_review
  | none => false

/-- Truthiness of `gateway_input.nbe_compliance_status and
gateway_input.nbe_compliance_status.overall_compliance.lower() != "pass"`. -/
def complianceFails (g : GatewayDecisionFields) : Bool :=
  match g.nbe_compliance_status with
  | some c => pyLower c.overall_compliance != "pass"
  | none => false

/-- Embeds the final_decision value computed by _determine_decisions
(gateway_analyzer.py 184-244): the decisions mapping starts from
`gateway_input.final_decision or "requires_review"` (line 187) and is then
overridden by the priority chain on lines 228-242 (fraud block, fraud manual
review, compliance failure, truthy explicit input final decision). -/
def determineFinalDecision (g : GatewayDecisionFields) : String :=
  let dFinal := pyOrStr g.final_decision "requires_review"
  if fraudBlocks g then "decline"
  else if fraudNeedsReview g then "requires_review"
  else if complianceFails g then "decline"
  else
    match g.final_decision with
    | some s => if s = "" then dFinal else s
    | none => dFinal

/-! ### Explainability stage of the analyze endpoint (main.py 328-354) -/

/-- Embeds ShapAnalysisExtended (models.py 118-123): global importance entries
are (feature, importance) pairs. -/
structure ShapAnalysisX where
  global_importance : List (String × ℚ)
  local_explanation : Option String
  description : Option String
  confidence_factors : List String
  risk_factors : List String

/-- Embeds ExplainabilityExtended (models.py 126-130): feature_importance
entries are (feature, importance, impact) triples. -/
structure ExplainabilityX where
  shap_analysis : Option ShapAnalysisX
  feature_importance : List (String × ℚ × String)
  explanation_available : Option Bool
  interpretation : Option String

/-- Embeds the mock explainability object built in analyze when MOCK_MODE is
enabled (main.py 343-354). -/
def mockExplainability : ExplainabilityX :=
  { shap_analysis := some
      { global_importance := []
        local_explanation := some "Mock mode: Explainability analysis not available"
        description := some "Mock mode active"
        confidence_factors := []
        risk_factors := [] }
    feature_importance := []
    explanation_available := some false
    interpretation := some "Mock mode: Using heuristic fallback for explainability" }

/-- Embeds the explainability stage of analyze (main.py 328-354): when
MOCK_MODE is off the Gemini explainability call is attempted and a
DownstreamError from it is re-raised as an HTTP 503 error response (lines
333-340); when MOCK_MODE is on the fixed mock object is used.  The outcome of
the outbound call is the `gemini` parameter; errors are modelled as
`Except.error` carrying the HTTP status code of the response. -/
def explainabilityStage (mockMode : Bool) (gemini : Except String ExplainabilityX) :
    Except Nat ExplainabilityX :=
  if !mockMode then
    match gemini with
    | Except.ok e => Except.ok e
    | Except.error _ => Except.error 503
  else Except.ok mockExplainability

/-! ### Platt calibration and approval probability (main.py 398-428) -/

/-- Embeds the clamp `p = max(1e-6, min(1 - 1e-6, p))` of _apply_platt
(main.py line 405). -/
def clampProb (p : ℚ) : ℚ := max (1/1000000) (min (1 - 1/1000000) p)

/-- Embeds _apply_platt (main.py 398-408): with no coefficients the base
probability is returned unchanged; with coefficients (a, b) the code clamps p
into [1e-6, 1-1e-6], maps it through logit, applies the logistic transform
1/(1+exp(a*logit+b)) over machine floats, and clamps the result to [0, 1].
The transcendental kernel exp/log is abstracted as the parameter `K`, applied
to the clamped probability and the coefficients; all claims about this
function concern only the coefficient-free branch, which is exact. -/
def applyPlatt (K : ℚ → ℚ → ℚ → ℚ) (p : ℚ) (coeffs : Option (ℚ × ℚ)) : ℚ :=
  match coeffs with
  | none => p
  | some ab => clamp01 (K (clampProb p) ab.1 ab.2)

/-- Embeds the base-rate table lookup of _approval_probability_from (main.py
411-421): the recommendation is stripped and lowercased and looked up in the
fixed table. -/
def recBaseRate (s : String) : Option ℚ :=
  let t := lowerTrim s
  if t = "approve" then some (85/100)
  else if t = "approve with conditions" then some (65/100)
  else if t = "manual review" then some (45/100)
  else if t = "decline" then some (10/100)
  else none

/-- Embeds _approval_probability_from (main.py 410-428): None for a
non-string recommendation, None on a table miss, otherwise the base rate is
passed through _apply_platt with the loaded coefficients and rounded to four
decimal places.  The coefficients loaded from the optional calibration file
by _load_platt_coeffs are the `coeffs` parameter (None when the file is
absent). -/
def approvalProbabilityFrom (K : ℚ → ℚ → ℚ → ℚ) (final_rec : Option String)
    (coeffs : Option (ℚ × ℚ)) : Option ℚ :=
  match final_rec with
  | none => none
  | some s =>
    match recBaseRate s with
    | none => none
    | some base => some (round4 (applyPlatt K base coeffs))

/-! ### Ensemble details block (main.py 584-632) -/

/-- The individual_predictions and weights entries of the ensemble_details
block of the extended response (main.py 585-602), as association lists. -/
structure EnsembleDetailsX where
  individual_predictions : List (String × ℚ)
  weights : List (String × ℚ)

/-- Embeds the single-model ensemble_details block assembled in analyze
(main.py 590-593): one "gemini" entry whose prediction is
_apply_platt(default_prob if default_prob is not None else
(scores.approval_probability or 0.5), _load_platt_coeffs()), with weight 1. -/
def baseEnsemble (K : ℚ → ℚ → ℚ → ℚ) (default_prob approval : Option ℚ)
    (coeffs : Option (ℚ × ℚ)) : EnsembleDetailsX :=
  { individual_predictions :=
      [("gemini", applyPlatt K
        (match default_prob with
         | some p => p
         | none => pyOrQ approval (1/2)) coeffs)]
    weights := [("gemini", 1)] }

/-- Modelled from the spec: the `multi` ensemble mode of §4.5/§6 — "a
multi-model configuration widens the weight set by splitting weight equally
across all configured model names (all sharing the same underlying
prediction — this is a display-only ensemble, not independently computed)".
The sources contain only the single-model block plus a comment pointing at an
env-configured multi-model reflection (main.py line 584); the widening itself
is absent from the sources, so it is modelled here from the spec text: the
configured names are the existing ones followed by the extra configured model
names, each receives weight 1/n, and every name carries the single underlying
gemini prediction. -/
def widenMulti (extraModels : List String) (ed : EnsembleDetailsX) : EnsembleDetailsX :=
  let names := ed.weights.map Prod.fst ++ extraModels
  let w : ℚ := 1 / (names.length : ℚ)
  let p : ℚ := (List.lookup "gemini" ed.individual_predictions).getD 0
  { individual_predictions := names.map (fun n => (n, p))
    weights := names.map (fun n => (n, w)) }

/-- Embeds the consensus computation of analyze (main.py 620-626):
total_w = sum(wts.values()) or 1.0, and consensus = round(sum(preds.get(k, 0)
* wts.get(k, 0) for k in wts.keys()) / total_w, 4). -/
def consensusScore (ed : EnsembleDetailsX) : ℚ :=
  let total := pyOrQ (some (ed.weights.map Prod.snd).sum) 1
  round4 (((ed.weights.map
    (fun kv => (List.lookup kv.fst ed.individual_predictions).getD 0 * kv.snd)).sum) / total)

/-- Embeds statistics.pvariance: the population variance of a list of
values.  The sources only apply it to nonempty lists; on the empty list the
rational division by zero yields 0 where Python would raise. -/
def pvariance (l : List ℚ) : ℚ :=
  let n : ℚ := (l.length : ℚ)
  let mu := l.sum / n
  (l.map (fun x => (x - mu) ^ 2)).sum / n

/-- Embeds statistics.pstdev: the square root of the population variance,
taken over the reals. -/
noncomputable def pstdev (l : List ℚ) : ℝ :=
  Real.sqrt ((pvariance l : ℚ) : ℝ)

/-- Python `round(x, 4)` over the reals, used for the diversity index.  Lean
rounds ties upward where Python rounds them to even; the two agree away from
exact ties, and every claim evaluates this function at 0. -/
noncomputable def round4Real (x : ℝ) : ℝ :=
  ((round (x * 10000) : ℤ) : ℝ) / 10000

/-- Embeds the diversity_index of the ensemble block (main.py 589 and
628-630): initialized to 0.0 and overwritten with round(pstdev(predictions),
4) when there are at least two individual predictions. -/
noncomputable def diversityIndexOf (ed : EnsembleDetailsX) : ℝ :=
  if 2 ≤ ed.individual_predictions.length then
    round4Real (pstdev (ed.individual_predictions.map Prod.snd))
  else 0

/-! ### Credit-score clamping and estimation (main.py 285-292, 430-444) -/

/-- Embeds _clamp_credit_score (main.py 285-292): None stays None, any other
value is rounded to an integer and clamped into [300, 850]. -/
def clampCreditScore (score : Option ℚ) : Option ℤ :=
  match score with
  | none => none
  | some q => some (max 300 (min 850 (pyRound q)))

/-- Embeds the credit-score consolidation of analyze (main.py 430-436): the
explicit input credit score clamped when present, else 850 − p·550 clamped
when a default probability p exists, else None. -/
def estimatedCreditScore (credit_score default_prob : Option ℚ) : Option ℤ :=
  match clampCreditScore credit_score with
  | some v => some v
  | none =>
    match default_prob with
    | some p => clampCreditScore (some (850 - p * 550))
    | none => none

/-! ### Risk category (main.py _derive_risk_category, 268-283) -/

/-- Embeds the default-probability branch of _derive_risk_category (main.py
273-280): Low below 0.1, Medium below 0.25, else High. -/
def riskCategoryFromProb (default_prob : Option ℚ) : Option String :=
  match default_prob with
  | none => none
  | some p =>
    if p < 1/10 then some "Low"
    else if p < 1/4 then some "Medium"
    else some "High"

/-- Embeds _derive_risk_category (main.py 268-283): a truthy risk level that
strips and lowercases to low/medium/high is capitalized and returned;
otherwise the category is thresholded from the default probability; otherwise
None. -/
def deriveRiskCategory (risk_level : Option String) (default_prob : Option ℚ) :
    Option String :=
  match risk_level with
  | some s =>
    if s ≠ "" ∧ (lowerTrim s = "low" ∨ lowerTrim s = "medium" ∨ lowerTrim s = "high") then
      some (pyCapitalize (lowerTrim s))
    else riskCategoryFromProb default_prob
  | none => riskCategoryFromProb default_prob

/-! ### Liquidity risk (main.py 465-478) -/

/-- Embeds the liquidity_risk derivation of analyze (main.py 465-478): days
and overdraft are the float conversions of aff["cash_buffer_days"] and
bank["overdraft_usage_days_90d"] (a missing or non-numeric value, which would
raise into the enclosing except and yield None, is modelled as none).  When
either is present, liquidity starts as None, becomes clamp01(1 −
min(days/90, 1)) when days is present, and becomes (liquidity or 0)·0.5 +
clamp01(overdraft/90)·0.5 when overdraft is present. -/
def liquidityRisk (days overdraft : Option ℚ) : Option ℚ :=
  if days ≠ none ∨ overdraft ≠ none then
    let l1 : Option ℚ :=
      match days with
      | some d => some (clamp01 (1 - min (d / 90) 1))
      | none => none
    match overdraft with
    | some o =>
      let overd := clamp01 (o / 90)
      some (pyOrQ l1 0 * (1/2) + overd * (1/2))
    | none => l1
  else none

/-! ### Gateway score extraction (gateway_analyzer.py _extract_scores, 48-59) -/

/-- Embeds GatewayAssessmentInput (models_extended.py 112-164) restricted to
the six top-level score fields _extract_scores consolidates. -/
structure GatewayScoreFields where
  credit_score : Option ℚ
  fraud_score : Option ℚ
  default_probability : Option ℚ
  ability_to_pay_score : Option ℚ
  willingness_to_pay_score : Option ℚ
  combined_atp_wtp_score : Option ℚ

/-- The scores mapping built by _extract_scores (gateway_analyzer.py 50-59),
restricted to the six top-level score entries: fraud_score and
default_probability are forced numeric via `or 0.0`, the other four are
passed through unchanged. -/
structure ExtractedScores where
  credit_score : Option ℚ
  fraud_score : ℚ
  default_probability : ℚ
  ability_to_pay_score : Option ℚ
  willingness_to_pay_score : Option ℚ
  combined_atp_wtp_score : Option ℚ

/-- Embeds _extract_scores (gateway_analyzer.py 48-59) on the six top-level
score fields: fraud_score = input.fraud_score or 0.0, default_probability =
input.default_probability or 0.0, the rest verbatim. -/
def extractScores (g : GatewayScoreFields) : ExtractedScores :=
  { credit_score := g.credit_score
    fraud_score := pyOrQ g.fraud_score 0
    default_probability := pyOrQ g.default_probability 0
    ability_to_pay_score := g.ability_to_pay_score
    willingness_to_pay_score := g.willingness_to_pay_score
    combined_atp_wtp_score := g.combined_atp_wtp_score }

/-! ## Claims -/

/-- Claim C1: every qualitative report produced by the system carries one of
the four canonical final_recommendation literals — the AI path accepts a
payload only when its normalized value passes the Literal validation, and the
fallback synthesizer emits only canonical values — and in particular an AI
payload carrying final_recommendation = "Rejected" is normalized to
"Decline" before schema validation. -/
theorem C1_final_recommendation_canonical
    (v r : String) (q : QSEFallbackView) (aid : String)
    (h : aiFinalRec v = some r) :
    r ∈ finalRecLiterals ∧
    (synthesizeFallback q aid).final_recommendation ∈ finalRecLiterals ∧
    normalizeFinalRec "Rejected" = "Decline" := by
  refine ⟨?_, ?_, ?_⟩
  · unfold aiFinalRec validateFinalRec at h
    by_cases hm : normalizeFinalRec v ∈ finalRecLiterals
    · rw [if_pos hm] at h
      cases h
      exact hm
    · rw [if_neg hm] at h
      cases h
  · cases hc : fallbackApproveConds q <;>
      simp [synthesizeFallback, hc, finalRecLiterals]
  · decide

/-- Witness for C1 at the concrete payload value "Rejected" and an empty
quantitative report. -/
theorem C1_final_recommendation_canonical_witness :
    "Decline" ∈ finalRecLiterals ∧
    (synthesizeFallback
      { request_id := "r1", customer_id := "c1", dti := none, residual_income := none,
        kyc := none, fayda := none, pep_hit := none, dsti := none } "a1").final_recommendation
      ∈ finalRecLiterals ∧
    normalizeFinalRec "Rejected" = "Decline" :=
  C1_final_recommendation_canonical "Rejected" "Decline"
    { request_id := "r1", customer_id := "c1", dti := none, residual_income := none,
      kyc := none, fayda := none, pep_hit := none, dsti := none } "a1" (by decide)

/-- Claim C2: the gateway final decision follows the strict override
priority: fraud block forces "decline"; otherwise fraud manual-review forces
"requires_review"; otherwise a compliance status other than "pass"
(case-insensitive) forces "decline"; otherwise a truthy explicit input final
decision is used; otherwise the default is "requires_review". -/
theorem C2_gateway_final_decision_priority (g : GatewayDecisionFields) :
    (∀ f, g.fraud_detection_result = some f → f.block_transaction = true →
      determineFinalDecision g = "decline") ∧
    (∀ f, g.fraud_detection_result = some f → f.block_transaction = false →
      f.require_manual_review = true → determineFinalDecision g = "requires_review") ∧
    (fraudBlocks g = false → fraudNeedsReview g = false →
      ∀ c, g.nbe_compliance_status = some c → pyLower c.overall_compliance ≠ "pass" →
      determineFinalDecision g = "decline") ∧
    (fraudBlocks g = false → fraudNeedsReview g = false → complianceFails g = false →
      ∀ s, g.final_decision = some s → s ≠ "" → determineFinalDecision g = s) ∧
    (fraudBlocks g = false → fraudNeedsReview g = false → complianceFails g = false →
      g.final_decision = none → determineFinalDecision g = "requires_review") := by
  refine ⟨?_, ?_, ?_, ?_, ?_⟩
  · intro f hf hb
    have h1 : fraudBlocks g = true := by
      unfold fraudBlocks
      rw [hf]
      exact hb
    simp [determineFinalDecision, h1]
  · intro f hf hb hr
    have h1 : fraudBlocks g = false := by
      unfold fraudBlocks
      rw [hf]
      exact hb
    have h2 : fraudNeedsReview g = true := by
      unfold fraudNeedsReview
      rw [hf]
      exact hr
    simp [determineFinalDecision, h1, h2]
  · intro h1 h2 c hc hne
    have h3 : complianceFails g = true := by
      unfold complianceFails
      rw [hc]
      simpa [bne_iff_ne] using hne
    simp [determineFinalDecision, h1, h2, h3]
  · intro h1 h2 h3 s hs hne
    simp [determineFinalDecision, h1, h2, h3, hs, hne]
  · intro h1 h2 h3 hs
    simp [determineFinalDecision, h1, h2, h3, hs, pyOrStr]

/-- Witness for C2: one concrete gateway input per priority level. -/
theorem C2_gateway_final_decision_priority_witness :
    determineFinalDecision
      { fraud_detection_result := some { block_transaction := true, require_manual_review := false },
        nbe_compliance_status := none, final_decision := some "approve" } = "decline" ∧
    determineFinalDecision
      { fraud_detection_result := some { block_transaction := false, require_manual_review := true },
        nbe_compliance_status := some { overall_compliance := "pass" },
        final_decision := some "approve" } = "requires_review" ∧
    determineFinalDecision
      { fraud_detection_result := some { block_transaction := false, require_manual_review := false },
        nbe_compliance_status := some { overall_compliance := "FAIL" },
        final_decision := some "approve" } = "decline" ∧
    determineFinalDecision
      { fraud_detection_result := none,
        nbe_compliance_status := some { overall_compliance := "Pass" },
        final_decision := some "approve" } = "approve" ∧
    determineFinalDecision
      { fraud_detection_result := none, nbe_compliance_status := none,
        final_decision := none } = "requires_review" :=
  ⟨(C2_gateway_final_decision_priority _).1
      { block_transaction := true, require_manual_review := false } rfl rfl,
   (C2_gateway_final_decision_priority _).2.1
      { block_transaction := false, require_manual_review := true } rfl rfl rfl,
   (C2_gateway_final_decision_priority _).2.2.1 rfl rfl
      { overall_compliance := "FAIL" } rfl (by decide),
   (C2_gateway_final_decision_priority _).2.2.2.1 (by decide) (by decide) (by decide)
      "approve" rfl (by decide),
   (C2_gateway_final_decision_priority _).2.2.2.2 (by decide) (by decide) (by decide) rfl⟩

/-- Counterexample to claim C3 as stated: in non-mock mode a failure of the
external explainability source (the Gemini explainability call) is propagated
by the analyze endpoint as an HTTP 503 error response, not treated as
absence. -/
theorem C3_explainability_failure_propagates :
    explainabilityStage false (Except.error "Gemini explainability call failed") =
      Except.error 503 := rfl

/-- Claim C3 amended: the analyze endpoint fails the request with an HTTP 503
error response when the explainability source fails in non-mock mode; only in
mock mode does the response always carry an explainability object, and that
object has empty lists and explanation_available = false. -/
theorem C3_explainability_amended (msg : String) (r : Except String ExplainabilityX) :
    explainabilityStage false (Except.error msg) = Except.error 503 ∧
    explainabilityStage true r = Except.ok mockExplainability ∧
    mockExplainability.explanation_available = some false ∧
    mockExplainability.feature_importance = [] ∧
    (mockExplainability.shap_analysis.map ShapAnalysisX.global_importance).getD [] = [] ∧
    (mockExplainability.shap_analysis.map ShapAnalysisX.confidence_factors).getD [] = [] ∧
    (mockExplainability.shap_analysis.map ShapAnalysisX.risk_factors).getD [] = [] :=
  ⟨rfl, rfl, rfl, rfl, rfl, rfl, rfl⟩

/-- The Bool compliance test of the fallback synthesizer holds exactly when
the corresponding propositional rule does. -/
theorem fallbackCompliant_iff (q : QSEFallbackView) :
    fallbackCompliant q = true ↔
      (q.pep_hit = some false ∧ (q.kyc = some "Enhanced" ∨ q.kyc = some "Standard") ∧
        q.fayda = some "Verified" ∧ q.dsti.getD 1 ≤ 35/100) := by
  simp [fallbackCompliant, and_assoc]

/-- The Bool decision test of the fallback synthesizer holds exactly when the
corresponding propositional rule does. -/
theorem fallbackApproveConds_iff (q : QSEFallbackView) :
    fallbackApproveConds q = true ↔
      ((∃ d, q.dti = some d ∧ d < 35/100) ∧
        (∃ r2, q.residual_income = some r2 ∧ r2 > 5000) ∧ q.fayda = some "Verified") := by
  unfold fallbackApproveConds
  cases hd : q.dti with
  | none => simp [hd]
  | some d =>
    cases hr : q.residual_income with
    | none =>
      simp only [hd, hr, pyOrQ, Bool.and_eq_true, decide_eq_true_eq, beq_iff_eq]
      constructor
      · rintro ⟨⟨_, h50⟩, _⟩
        norm_num at h50
      · rintro ⟨_, ⟨x, hx, _⟩, _⟩
        cases hx
    | some x =>
      by_cases hx : x = 0
      · simp only [hd, hr, pyOrQ, hx, if_pos, Bool.and_eq_true, decide_eq_true_eq,
          beq_iff_eq]
        norm_num
      · simp only [hd, hr, pyOrQ, if_neg hx, Bool.and_eq_true, decide_eq_true_eq,
          beq_iff_eq]
        constructor
        · rintro ⟨⟨hlt, hgt⟩, hf⟩
          exact ⟨⟨d, rfl, hlt⟩, ⟨x, rfl, hgt⟩, hf⟩
        · rintro ⟨⟨d2, hd2, hlt⟩, ⟨x2, hx2, hgt⟩, hf⟩
          cases hd2
          cases hx2
          exact ⟨⟨hlt, hgt⟩, hf⟩

/-- Claim C4: the fallback synthesizer marks compliance exactly when the
PEP/sanctions flag is exactly false, the KYC level is Enhanced or Standard,
the identity is Fayda-verified, and the DSTI (defaulting to 1, i.e. failing,
when absent) is at most 0.35; and it recommends "Approve with Conditions"
exactly when the DTI is present and below 0.35, the residual income exceeds
5000 and the identity is verified, and "Manual Review" exactly otherwise.
The concrete scenario of the spec (DTI 0.2, residual income 8000, verified
identity, Standard KYC, no PEP hit, DSTI 0.3) closes the statement. -/
theorem C4_fallback_rules (q : QSEFallbackView) (aid : String) :
    ((synthesizeFallback q aid).nbe_compliance_summary = "COMPLIANT" ↔
      (q.pep_hit = some false ∧ (q.kyc = some "Enhanced" ∨ q.kyc = some "Standard") ∧
        q.fayda = some "Verified" ∧ q.dsti.getD 1 ≤ 35/100)) ∧
    ((synthesizeFallback q aid).final_recommendation = "Approve with Conditions" ↔
      ((∃ d, q.dti = some d ∧ d < 35/100) ∧
        (∃ r2, q.residual_income = some r2 ∧ r2 > 5000) ∧ q.fayda = some "Verified")) ∧
    ((synthesizeFallback q aid).final_recommendation = "Manual Review" ↔
      ¬((∃ d, q.dti = some d ∧ d < 35/100) ∧
        (∃ r2, q.residual_income = some r2 ∧ r2 > 5000) ∧ q.fayda = some "Verified")) ∧
    (synthesizeFallback
      { request_id := "r1", customer_id := "c1", dti := some (2/10),
        residual_income := some 8000, kyc := some "Standard", fayda := some "Verified",
        pep_hit := some false, dsti := some (3/10) } "a1").final_recommendation =
      "Approve with Conditions" ∧
    (synthesizeFallback
      { request_id := "r1", customer_id := "c1", dti := some (2/10),
        residual_income := some 8000, kyc := some "Standard", fayda := some "Verified",
        pep_hit := some false, dsti := some (3/10) } "a1").nbe_compliance_summary =
      "COMPLIANT" := by
  refine ⟨?_, ?_, ?_, ?_, ?_⟩
  · rw [← fallbackCompliant_iff]
    cases hc : fallbackCompliant q <;> simp [synthesizeFallback, hc]
  · rw [← fallbackApproveConds_iff]
    cases hc : fallbackApproveConds q <;> simp [synthesizeFallback, hc]
  · rw [← fallbackApproveConds_iff]
    cases hc : fallbackApproveConds q <;> simp [synthesizeFallback, hc]
  · have h : fallbackApproveConds
        { request_id := "r1", customer_id := "c1", dti := some (2/10),
          residual_income := some 8000, kyc := some "Standard", fayda := some "Verified",
          pep_hit := some false, dsti := some (3/10) } = true := by
      simp [fallbackApproveConds, pyOrQ]
      norm_num
    simp [synthesizeFallback, h]
  · have h : fallbackCompliant
        { request_id := "r1", customer_id := "c1", dti := some (2/10),
          residual_income := some 8000, kyc := some "Standard", fayda := some "Verified",
          pep_hit := some false, dsti := some (3/10) } = true := by
      simp [fallbackCompliant]
      norm_num
    simp [synthesizeFallback, h]

/-- The unrounded weighted mean that the consensus computation of analyze
rounds (main.py 624-625): the sum of prediction times weight over the weight
keys, divided by the weight total (with the `or 1.0` guard). -/
def weightedMean (ed : EnsembleDetailsX) : ℚ :=
  let total := pyOrQ (some (ed.weights.map Prod.snd).sum) 1
  ((ed.weights.map
    (fun kv => (List.lookup kv.fst ed.individual_predictions).getD 0 * kv.snd)).sum) / total

/-- The consensus score is by definition the rounded weighted mean. -/
theorem consensusScore_eq_round4_weightedMean (ed : EnsembleDetailsX) :
    consensusScore ed = round4 (weightedMean ed) := rfl

/-- Widening the single-model block by one extra model name splits the weight
in half and repeats the shared prediction. -/
theorem widenMulti_single (K : ℚ → ℚ → ℚ → ℚ) (dp : ℚ) (x : String) :
    widenMulti [x] (baseEnsemble K (some dp) none none) =
      { individual_predictions := [("gemini", dp), (x, dp)]
        weights := [("gemini", 1/2), (x, 1/2)] } := by
  simp [widenMulti, baseEnsemble, applyPlatt, List.lookup]

/-- The weighted mean of a two-model block sharing one prediction is that
prediction. -/
theorem weightedMean_pair (dp : ℚ) (x : String) :
    weightedMean { individual_predictions := [("gemini", dp), (x, dp)]
                   weights := [("gemini", 1/2), (x, 1/2)] } = dp := by
  have hb : (x == "gemini") = true ∨ (x == "gemini") = false := by
    cases x == "gemini"
    · right
      rfl
    · left
      rfl
  rcases hb with hb | hb <;>
  · simp [weightedMean, List.lookup, pyOrQ, hb]
    ring

/-- The consensus score of a two-model block sharing one prediction is that
prediction rounded to four decimal places. -/
theorem consensus_pair (dp : ℚ) (x : String) :
    consensusScore { individual_predictions := [("gemini", dp), (x, dp)]
                     weights := [("gemini", 1/2), (x, 1/2)] } = round4 dp := by
  rw [consensusScore_eq_round4_weightedMean, weightedMean_pair]

/-- The diversity index of a two-model block sharing one prediction is 0. -/
theorem diversity_pair (dp : ℚ) (x : String) :
    diversityIndexOf { individual_predictions := [("gemini", dp), (x, dp)]
                       weights := [("gemini", 1/2), (x, 1/2)] } = 0 := by
  have hv : pvariance [dp, dp] = 0 := by
    unfold pvariance
    simp only [List.sum_cons, List.sum_nil, List.length_cons, List.length_nil,
      List.map_cons, List.map_nil]
    push_cast
    ring_nf
  have hs : pstdev [dp, dp] = 0 := by
    rw [pstdev, hv]
    simp
  simp [diversityIndexOf, hs, round4Real]

/-- Counterexample to claim C5 as stated: under multi mode with one extra
configured model and shared underlying prediction 1/100000, the weighted mean
of the individual predictions is 1/100000, but the consensus_score the code
computes is round(1/100000, 4) = 0, so consensus_score does not equal the
weighted mean of the individual predictions. -/
theorem C5_consensus_not_weighted_mean :
    weightedMean (widenMulti ["modelX"]
      (baseEnsemble (fun _ _ _ => 0) (some (1/100000)) none none)) = 1/100000 ∧
    consensusScore (widenMulti ["modelX"]
      (baseEnsemble (fun _ _ _ => 0) (some (1/100000)) none none)) = 0 ∧
    (0 : ℚ) ≠ 1/100000 := by
  rw [widenMulti_single]
  refine ⟨weightedMean_pair _ _, ?_, by norm_num⟩
  rw [consensus_pair]
  unfold round4 pyRound
  norm_num

/-- Claim C5 amended: under multi mode with one extra configured model name,
the weights split equally ({gemini: 0.5, extra: 0.5}), every individual
prediction equals the single underlying prediction, consensus_score equals
the weighted mean of the individual predictions rounded to four decimal
places (hence equals the shared prediction whenever that prediction has at
most four decimal places, as in the 0.4 scenario), and diversity_index, the
rounded population standard deviation of the predictions, equals 0.  The
widening itself is modelled from the spec; the consensus and diversity
computations are the code from main.py 619-632. -/
theorem C5_multi_ensemble_amended (K : ℚ → ℚ → ℚ → ℚ) (dp : ℚ) (x : String) :
    (widenMulti [x] (baseEnsemble K (some dp) none none)).weights =
      [("gemini", 1/2), (x, 1/2)] ∧
    (widenMulti [x] (baseEnsemble K (some dp) none none)).individual_predictions =
      [("gemini", dp), (x, dp)] ∧
    consensusScore (widenMulti [x] (baseEnsemble K (some dp) none none)) =
      round4 (weightedMean (widenMulti [x] (baseEnsemble K (some dp) none none))) ∧
    weightedMean (widenMulti [x] (baseEnsemble K (some dp) none none)) = dp ∧
    diversityIndexOf (widenMulti [x] (baseEnsemble K (some dp) none none)) = 0 ∧
    consensusScore (widenMulti ["modelX"]
      (baseEnsemble K (some (2/5)) none none)) = 2/5 ∧
    diversityIndexOf (widenMulti ["modelX"]
      (baseEnsemble K (some (2/5)) none none)) = 0 := by
  rw [widenMulti_single, widenMulti_single]
  refine ⟨rfl, rfl, consensusScore_eq_round4_weightedMean _, weightedMean_pair dp x,
    diversity_pair dp x, ?_, diversity_pair _ _⟩
  rw [consensus_pair]
  unfold round4 pyRound
  norm_num

/-- Claim C6: with no Platt calibration coefficients supplied, the approval
probability equals the fixed base rate keyed by the final recommendation
(Approve 0.85, Approve with Conditions 0.65, Manual Review 0.45, Decline
0.10) unchanged, and is None for any string whose stripped lowercase form is
not a key of the table, as well as for a missing recommendation. -/
theorem C6_approval_probability_base_rates (K : ℚ → ℚ → ℚ → ℚ) (s : String)
    (h : lowerTrim s ≠ "approve") (h2 : lowerTrim s ≠ "approve with conditions")
    (h3 : lowerTrim s ≠ "manual review") (h4 : lowerTrim s ≠ "decline") :
    approvalProbabilityFrom K (some "Approve") none = some (85/100) ∧
    approvalProbabilityFrom K (some "Approve with Conditions") none = some (65/100) ∧
    approvalProbabilityFrom K (some "Manual Review") none = some (45/100) ∧
    approvalProbabilityFrom K (some "Decline") none = some (10/100) ∧
    approvalProbabilityFrom K (some s) none = none ∧
    approvalProbabilityFrom K none none = none := by
  refine ⟨?_, ?_, ?_, ?_, ?_, rfl⟩
  · have ht : lowerTrim "Approve" = "approve" := by decide
    simp [approvalProbabilityFrom, recBaseRate, ht, applyPlatt]
    unfold round4 pyRound
    norm_num
  · have ht : lowerTrim "Approve with Conditions" = "approve with conditions" := by decide
    simp [approvalProbabilityFrom, recBaseRate, ht, applyPlatt]
    unfold round4 pyRound
    norm_num
  · have ht : lowerTrim "Manual Review" = "manual review" := by decide
    simp [approvalProbabilityFrom, recBaseRate, ht, applyPlatt]
    unfold round4 pyRound
    norm_num
  · have ht : lowerTrim "Decline" = "decline" := by decide
    simp [approvalProbabilityFrom, recBaseRate, ht, applyPlatt]
    unfold round4 pyRound
    norm_num
  · simp [approvalProbabilityFrom, recBaseRate, h, h2, h3, h4]

/-- Witness for C6 at the concrete non-table recommendation "Rejected". -/
theorem C6_approval_probability_base_rates_witness :
    approvalProbabilityFrom (fun _ _ _ => 0) (some "Approve") none = some (85/100) ∧
    approvalProbabilityFrom (fun _ _ _ => 0) (some "Approve with Conditions") none =
      some (65/100) ∧
    approvalProbabilityFrom (fun _ _ _ => 0) (some "Manual Review") none = some (45/100) ∧
    approvalProbabilityFrom (fun _ _ _ => 0) (some "Decline") none = some (10/100) ∧
    approvalProbabilityFrom (fun _ _ _ => 0) (some "Rejected") none = none ∧
    approvalProbabilityFrom (fun _ _ _ => 0) none none = none :=
  C6_approval_probability_base_rates (fun _ _ _ => 0) "Rejected"
    (by decide) (by decide) (by decide) (by decide)

/-- Claim C7: the consolidated output credit score is None or an integer in
[300, 850]: an explicit input credit score (however negative or large) is
rounded and clamped into [300, 850]; when it is absent but a default
probability p exists, the score is 850 − p·550, rounded and clamped into the
same range; and with neither input it is None. -/
theorem C7_credit_score_clamped (cs dp : Option ℚ) :
    (∀ v, estimatedCreditScore cs dp = some v → 300 ≤ v ∧ v ≤ 850) ∧
    (∀ x, cs = some x →
      estimatedCreditScore cs dp = some (max 300 (min 850 (pyRound x)))) ∧
    (∀ p, cs = none → dp = some p →
      estimatedCreditScore cs dp = some (max 300 (min 850 (pyRound (850 - p * 550))))) ∧
    (cs = none → dp = none → estimatedCreditScore cs dp = none) := by
  have hrange : ∀ r : ℤ, 300 ≤ max 300 (min 850 r) ∧ max 300 (min 850 r) ≤ 850 :=
    fun r => ⟨le_max_left _ _, max_le (by norm_num) (min_le_left _ _)⟩
  refine ⟨?_, ?_, ?_, ?_⟩
  · intro v hv
    cases hcs : cs with
    | some x =>
      rw [hcs] at hv
      simp [estimatedCreditScore, clampCreditScore] at hv
      rw [← hv]
      exact hrange _
    | none =>
      rw [hcs] at hv
      cases hdp : dp with
      | some p =>
        rw [hdp] at hv
        simp [estimatedCreditScore, clampCreditScore] at hv
        rw [← hv]
        exact hrange _
      | none =>
        rw [hdp] at hv
        simp [estimatedCreditScore, clampCreditScore] at hv
  · intro x hx
    rw [hx]
    simp [estimatedCreditScore, clampCreditScore]
  · intro p hc hp
    rw [hc, hp]
    simp [estimatedCreditScore, clampCreditScore]
  · intro hc hp
    rw [hc, hp]
    simp [estimatedCreditScore, clampCreditScore]

/-- Witness for C7: an explicit out-of-range score of −50 clamps to 300, and
an absent score with default probability 0.5 estimates to 575. -/
theorem C7_credit_score_clamped_witness :
    (300 ≤ (300:ℤ) ∧ (300:ℤ) ≤ 850) ∧
    estimatedCreditScore (some (-50)) none = some (max 300 (min 850 (pyRound (-50)))) ∧
    estimatedCreditScore none (some (1/2)) =
      some (max 300 (min 850 (pyRound (850 - (1/2) * 550)))) ∧
    estimatedCreditScore none none = none := by
  refine ⟨?_, (C7_credit_score_clamped (some (-50)) none).2.1 (-50) rfl,
    (C7_credit_score_clamped none (some (1/2))).2.2.1 (1/2) rfl rfl,
    (C7_credit_score_clamped none none).2.2.2 rfl rfl⟩
  have h := (C7_credit_score_clamped (some (-50)) (none : Option ℚ)).1 300
  apply h
  rw [(C7_credit_score_clamped (some (-50)) (none : Option ℚ)).2.1 (-50) rfl]
  have hpr : pyRound (-50 : ℚ) = -50 := by
    unfold pyRound
    norm_num
  rw [hpr]
  norm_num

/-- Claim C8: the risk category is the capitalized risk level when the level
strips and lowercases to low/medium/high; otherwise it is thresholded from
the default probability (Low below 0.1, Medium below 0.25, else High, so
0.05 gives Low, 0.20 gives Medium, 0.40 gives High); otherwise it is None. -/
theorem C8_risk_category (s : String) (p : ℚ) (dp : Option ℚ) :
    (lowerTrim s = "low" → deriveRiskCategory (some s) dp = some "Low") ∧
    (lowerTrim s = "medium" → deriveRiskCategory (some s) dp = some "Medium") ∧
    (lowerTrim s = "high" → deriveRiskCategory (some s) dp = some "High") ∧
    (lowerTrim s ≠ "low" → lowerTrim s ≠ "medium" → lowerTrim s ≠ "high" →
      deriveRiskCategory (some s) dp = riskCategoryFromProb dp) ∧
    deriveRiskCategory none dp = riskCategoryFromProb dp ∧
    (p < 1/10 → riskCategoryFromProb (some p) = some "Low") ∧
    (¬ p < 1/10 → p < 1/4 → riskCategoryFromProb (some p) = some "Medium") ∧
    (¬ p < 1/4 → riskCategoryFromProb (some p) = some "High") ∧
    riskCategoryFromProb none = none ∧
    riskCategoryFromProb (some (1/20)) = some "Low" ∧
    riskCategoryFromProb (some (1/5)) = some "Medium" ∧
    riskCategoryFromProb (some (2/5)) = some "High" := by
  refine ⟨?_, ?_, ?_, ?_, rfl, ?_, ?_, ?_, rfl, ?_, ?_, ?_⟩
  · intro h
    have hne : s ≠ "" := by
      intro he
      rw [he] at h
      exact absurd h (by decide)
    have hlow : pyCapitalize "low" = "Low" := by decide
    simp [deriveRiskCategory, h, hne, hlow]
  · intro h
    have hne : s ≠ "" := by
      intro he
      rw [he] at h
      exact absurd h (by decide)
    have hmed : pyCapitalize "medium" = "Medium" := by decide
    simp [deriveRiskCategory, h, hne, hmed]
  · intro h
    have hne : s ≠ "" := by
      intro he
      rw [he] at h
      exact absurd h (by decide)
    have hhigh : pyCapitalize "high" = "High" := by decide
    simp [deriveRiskCategory, h, hne, hhigh]
  · intro h1 h2 h3
    simp [deriveRiskCategory, h1, h2, h3]
  · intro h
    show (if p < 1/10 then (some "Low" : Option String)
      else if p < 1/4 then some "Medium" else some "High") = some "Low"
    rw [if_pos h]
  · intro h1 h2
    show (if p < 1/10 then (some "Low" : Option String)
      else if p < 1/4 then some "Medium" else some "High") = some "Medium"
    rw [if_neg h1, if_pos h2]
  · intro h
    have h10 : ¬ p < 1/10 := fun hc => h (hc.trans (by norm_num))
    show (if p < 1/10 then (some "Low" : Option String)
      else if p < 1/4 then some "Medium" else some "High") = some "High"
    rw [if_neg h10, if_neg h]
  · norm_num [riskCategoryFromProb]
  · norm_num [riskCategoryFromProb]
  · norm_num [riskCategoryFromProb]

/-- Witness for C8: the level " LOW " capitalizes to Low regardless of a
default probability, and the probabilities 0.05, 0.20, 0.40 thresholds. -/
theorem C8_risk_category_witness :
    deriveRiskCategory (some " LOW ") (some (2/5)) = some "Low" ∧
    riskCategoryFromProb (some (1/5)) = some "Medium" ∧
    riskCategoryFromProb (some (2/5)) = some "High" :=
  ⟨(C8_risk_category " LOW " (1/5) (some (2/5))).1 (by decide),
   (C8_risk_category " LOW " (1/5) (some (2/5))).2.2.2.2.2.2.1
     (by norm_num) (by norm_num),
   (C8_risk_category " LOW " (2/5) (some (2/5))).2.2.2.2.2.2.2.1 (by norm_num)⟩

/-- Claim C9: liquidity risk is None when both cash-buffer days and overdraft
days are absent; with days present alone it is clamp01(1 − min(days/90, 1));
with both present it is the blend of that value with clamp01(overdraft/90),
each weighted one half. -/
theorem C9_liquidity_risk (d o : ℚ) :
    liquidityRisk none none = none ∧
    liquidityRisk (some d) none = some (clamp01 (1 - min (d / 90) 1)) ∧
    liquidityRisk (some d) (some o) =
      some (clamp01 (1 - min (d / 90) 1) * (1/2) + clamp01 (o / 90) * (1/2)) := by
  refine ⟨rfl, by simp [liquidityRisk], ?_⟩
  by_cases hz : clamp01 (1 - min (d / 90) 1) = 0
  · simp [liquidityRisk, pyOrQ, hz]
  · simp [liquidityRisk, pyOrQ, hz]

/-- Claim C10: the gateway scores block forces fraud_score and
default_probability to numbers (0.0 when the input field is absent, the
value itself otherwise), while credit score, ATP, WTP and combined ATP/WTP
scores pass through unchanged. -/
theorem C10_extract_scores (g : GatewayScoreFields) :
    (extractScores g).fraud_score = g.fraud_score.getD 0 ∧
    (extractScores g).default_probability = g.default_probability.getD 0 ∧
    (g.fraud_score = none → (extractScores g).fraud_score = 0) ∧
    (g.default_probability = none → (extractScores g).default_probability = 0) ∧
    (extractScores g).credit_score = g.credit_score ∧
    (extractScores g).ability_to_pay_score = g.ability_to_pay_score ∧
    (extractScores g).willingness_to_pay_score = g.willingness_to_pay_score ∧
    (extractScores g).combined_atp_wtp_score = g.combined_atp_wtp_score := by
  have hz : ∀ x : Option ℚ, pyOrQ x 0 = x.getD 0 := by
    intro x
    cases x with
    | none => rfl
    | some y =>
      by_cases hy : y = 0
      · simp [pyOrQ, hy]
      · simp [pyOrQ, hy]
  refine ⟨hz _, hz _, ?_, ?_, rfl, rfl, rfl, rfl⟩
  · intro h
    simp [extractScores, h, pyOrQ]
  · intro h
    simp [extractScores, h, pyOrQ]

/-- Witness for C10 at the all-absent gateway input. -/
theorem C10_extract_scores_witness :
    (extractScores
      { credit_score := none, fraud_score := none, default_probability := none,
        ability_to_pay_score := none, willingness_to_pay_score := none,
        combined_atp_wtp_score := none }).fraud_score = 0 ∧
    (extractScores
      { credit_score := none, fraud_score := none, default_probability := none,
        ability_to_pay_score := none, willingness_to_pay_score := none,
        combined_atp_wtp_score := none }).default_probability = 0 :=
  ⟨(C10_extract_scores _).2.2.1 rfl, (C10_extract_scores _).2.2.2.1 rfl⟩

end CrediSynth
